import Mathlib

/-!
Verification of the recording/transcription orchestration in
`src/parrator/tray_app.py` (class `ParratorTrayApp`).

The mutable state of the application consists of the two booleans
`is_recording` and `model_loaded`, plus the tray icon's title (the tray icon
may not exist yet, hence an `Option`).  External collaborators
(`AudioRecorder`, `Transcriber`, `pyperclip`, `pyautogui`, `Config`) are
modelled by an environment record `Env` fixing the result of each call; a
raising Python call is an `Except.error`.  Observable behaviour (prints,
tray-title writes, collaborator calls) is recorded as a list of `Event`s in
program order.  The background thread spawned by `_process_audio_async` does
not touch the application state in the source, so it is embedded as the pure
function `process : Env → List Int → List Event`; a toggle that spawns it
returns the audio data handed to the thread in the `spawned` field.
-/

namespace Parrator

/-- Observable actions of `ParratorTrayApp`, in program order: console prints,
tray-title updates, and calls into the external collaborators. -/
inductive Event where
  | print (s : String)
  | setTitle (s : String)
  | callStart
  | callStop
  | callSave
  | callTranscribe
  | callRemove
  | callClipboardCopy
  | callPaste
deriving DecidableEq, Repr

/-- Mutable state of `ParratorTrayApp`: the `is_recording` and `model_loaded`
flags and the tray icon title (`none` when `self.tray_icon` is `None`). -/
structure AppState where
  is_recording : Bool
  model_loaded : Bool
  tray_title : Option String
deriving DecidableEq, Repr

/-- Results of the external collaborator calls made by the orchestration code:
`audio_recorder.start_recording`, `audio_recorder.stop_recording`,
`audio_recorder.save_temp_audio`, `transcriber.transcribe_file`, `os.remove`,
`pyperclip.copy`, the `auto_paste` config flag, and `pyautogui.hotkey`.
An `Except.error` models the Python call raising. -/
structure Env where
  startResult : Bool
  stopResult : Option (List Int)
  saveResult : List Int → Option String
  transcribeResult : String → Except String (Bool × String)
  removeResult : String → Except String Unit
  clipboardResult : String → Except String Unit
  auto_paste : Bool
  pasteResult : Except String Unit

/-- Result of one `_toggle_recording` call: the new state, the events emitted
synchronously, and the audio data handed to a spawned background processing
thread (`none` when no thread was spawned). -/
structure ToggleResult where
  state : AppState
  events : List Event
  spawned : Option (List Int)
deriving DecidableEq, Repr

/-- Title computed by `_update_tray_icon` (lines 210-215 of tray_app.py). -/
def trayTitle (s : AppState) : String :=
  if s.is_recording then "Parrator - Recording..."
  else if s.model_loaded then "Parrator - Ready"
  else "Parrator - Loading..."

/-- `_update_tray_icon` (lines 207-217): when a tray icon exists, set its
title from the current flags; otherwise do nothing. -/
def update_tray_icon (s : AppState) : AppState × List Event :=
  match s.tray_title with
  | some _ => ({ s with tray_title := some (trayTitle s) }, [Event.setTitle (trayTitle s)])
  | none => (s, [])

/-- `_auto_paste` (lines 197-205): simulate ctrl+v; any exception is caught
inside and only printed. -/
def auto_paste (env : Env) : List Event :=
  match env.pasteResult with
  | Except.ok _ => [Event.callPaste, Event.print "Auto-pasted"]
  | Except.error e => [Event.print ("Auto-paste failed: " ++ e)]

/-- `_handle_transcription_result` (lines 180-195): print the text, attempt a
clipboard copy, and on success optionally auto-paste; an exception from the
clipboard block is caught and printed as a clipboard error. -/
def handle_transcription_result (env : Env) (text : String) : List Event :=
  Event.print ("Transcribed: " ++ text) ::
    Event.callClipboardCopy ::
      match env.clipboardResult text with
      | Except.error e => [Event.print ("Clipboard error: " ++ e)]
      | Except.ok _ =>
          Event.print "Copied to clipboard" ::
            (if env.auto_paste then auto_paste env else [])

/-- Body of the background thread spawned by `_process_audio_async`
(lines 150-178): save a temp file (a `None` or empty path is falsy and
aborts), transcribe it, remove the temp file inside `try ... except: pass`,
then handle the result; the outer `try` catches any exception (in particular
one raised by `transcribe_file`) and prints a processing error. -/
def process (env : Env) (audio_data : List Int) : List Event :=
  Event.callSave ::
    match env.saveResult audio_data with
    | none => [Event.print "Failed to save audio"]
    | some temp_path =>
        if temp_path = "" then [Event.print "Failed to save audio"]
        else
          Event.callTranscribe ::
            match env.transcribeResult temp_path with
            | Except.error e => [Event.print ("Processing error: " ++ e)]
            | Except.ok (success, text) =>
                (match env.removeResult temp_path with
                 | Except.ok _ => [Event.callRemove]
                 | Except.error _ => [Event.callRemove]) ++
                  (if success = true ∧ text ≠ "" then handle_transcription_result env text
                   else [Event.print "Transcription failed"])

/-- `_start_recording` (lines 125-134): print, set the flag, publish the
title, then call `start_recording`; on failure print, reset the flag and
publish again. -/
def start_recording (env : Env) (s : AppState) : AppState × List Event :=
  let s1 : AppState := { s with is_recording := true }
  let u1 := update_tray_icon s1
  if env.startResult then
    (u1.1, Event.print "Recording started..." :: u1.2 ++ [Event.callStart])
  else
    let s2 : AppState := { u1.1 with is_recording := false }
    let u2 := update_tray_icon s2
    (u2.1,
      Event.print "Recording started..." :: u1.2
        ++ [Event.callStart, Event.print "Failed to start recording"] ++ u2.2)

/-- `_stop_recording` (lines 136-148): print, clear the flag, publish the
title, call `stop_recording`; when audio data is present (`is not None`)
spawn the background processing thread, otherwise print. -/
def stop_recording (env : Env) (s : AppState) : ToggleResult :=
  let s1 : AppState := { s with is_recording := false }
  let u1 := update_tray_icon s1
  match env.stopResult with
  | some audio_data =>
      { state := u1.1,
        events := Event.print "Recording stopped, processing..." :: u1.2 ++ [Event.callStop],
        spawned := some audio_data }
  | none =>
      { state := u1.1,
        events :=
          Event.print "Recording stopped, processing..." :: u1.2
            ++ [Event.callStop, Event.print "No audio data captured"],
        spawned := none }

/-- `_toggle_recording` (lines 114-123): refuse while the model is not
loaded, otherwise dispatch on the `is_recording` flag. -/
def toggle_recording (env : Env) (s : AppState) : ToggleResult :=
  if s.model_loaded = false then
    { state := s, events := [Event.print "Model still loading, please wait..."], spawned := none }
  else if s.is_recording = false then
    let r := start_recording env s
    { state := r.1, events := r.2, spawned := none }
  else
    stop_recording env s

/-- Body of the thread spawned by `_load_model_async` (lines 60-71): on a
successful `load_model` set the flag, publish the title and print; on failure
only print. -/
def load_model_task (loadOk : Bool) (s : AppState) : AppState × List Event :=
  if loadOk then
    let s1 : AppState := { s with model_loaded := true }
    let u := update_tray_icon s1
    (u.1, u.2 ++ [Event.print "Model loaded successfully"])
  else
    (s, [Event.print "Failed to load model"])

/-!
Micro-step interleaving model of `_toggle_recording` for the concurrency
claims.  Each Python line touching the shared `is_recording` flag is one
atomic step.  The scenario fixed here is the one named by the spec:
`model_loaded` is `True` and `start_recording` succeeds, so the read of
`model_loaded` passes and the start path ends after the start call.  Two
threads A and B each run one `_toggle_recording` invocation; a schedule is a
list of booleans (`true` = thread A takes the next step).
-/

/-- Program counter of one thread executing `_toggle_recording`:
read `model_loaded` (line 116), read `is_recording` (line 120), then either
the stop path (write flag line 139, icon line 140, `stop_recording` call
line 143) or the start path (write flag line 128, icon line 129,
`start_recording` call line 131). -/
inductive MicroPC where
  | readModel
  | readFlag
  | stopWrite
  | stopIcon
  | stopCall
  | startWrite
  | startIcon
  | startCall
  | finished
deriving DecidableEq, Repr

/-- Shared flag plus both threads' program counters and per-thread counters of
`stop_recording` and `start_recording` calls made so far. -/
structure ConcState where
  flag : Bool
  pcA : MicroPC
  pcB : MicroPC
  stopsA : Nat
  stopsB : Nat
  startsA : Nat
  startsB : Nat
deriving DecidableEq, Repr

/-- One atomic step of a thread at `pc` with the shared flag `flag`: returns
the new pc, the new flag, and whether this step was the `stop_recording`
resp. `start_recording` call. -/
def microStep (pc : MicroPC) (flag : Bool) : MicroPC × Bool × Bool × Bool :=
  match pc with
  | MicroPC.readModel => (MicroPC.readFlag, flag, false, false)
  | MicroPC.readFlag =>
      (if flag then MicroPC.stopWrite else MicroPC.startWrite, flag, false, false)
  | MicroPC.stopWrite => (MicroPC.stopIcon, false, false, false)
  | MicroPC.stopIcon => (MicroPC.stopCall, flag, false, false)
  | MicroPC.stopCall => (MicroPC.finished, flag, true, false)
  | MicroPC.startWrite => (MicroPC.startIcon, true, false, false)
  | MicroPC.startIcon => (MicroPC.startCall, flag, false, false)
  | MicroPC.startCall => (MicroPC.finished, flag, false, true)
  | MicroPC.finished => (MicroPC.finished, flag, false, false)

/-- Run one scheduled step: `true` steps thread A, `false` steps thread B. -/
def schedStep (s : ConcState) (isA : Bool) : ConcState :=
  if isA then
    let r := microStep s.pcA s.flag
    { s with
      pcA := r.1, flag := r.2.1,
      stopsA := s.stopsA + (if r.2.2.1 then 1 else 0),
      startsA := s.startsA + (if r.2.2.2 then 1 else 0) }
  else
    let r := microStep s.pcB s.flag
    { s with
      pcB := r.1, flag := r.2.1,
      stopsB := s.stopsB + (if r.2.2.1 then 1 else 0),
      startsB := s.startsB + (if r.2.2.2 then 1 else 0) }

/-- Run a whole schedule from a state. -/
def runSched (sched : List Bool) (s : ConcState) : ConcState :=
  sched.foldl schedStep s

/-- Both threads about to enter `_toggle_recording` while the app is
recording. -/
def cInit : ConcState :=
  { flag := true, pcA := MicroPC.readModel, pcB := MicroPC.readModel,
    stopsA := 0, stopsB := 0, startsA := 0, startsB := 0 }

/-! Concrete fixtures used by witnesses and counterexamples. -/

/-- Environment in which every collaborator call succeeds and the recorder
returns the samples `[1, 2, 3]`. -/
def envStd : Env :=
  { startResult := true,
    stopResult := some [1, 2, 3],
    saveResult := fun _ => some "/tmp/parrator_a.wav",
    transcribeResult := fun _ => Except.ok (true, "hello world"),
    removeResult := fun _ => Except.ok (),
    clipboardResult := fun _ => Except.ok (),
    auto_paste := true,
    pasteResult := Except.ok () }

/-- Like `envStd` but the recorder returns a present-but-empty sample list. -/
def envEmptyAudio : Env := { envStd with stopResult := some [] }

/-- Like `envStd` but the recorder returns `None` from `stop_recording`. -/
def envNoAudio : Env := { envStd with stopResult := none }

/-- Like `envStd` but `transcribe_file` raises. -/
def envRaise : Env := { envStd with transcribeResult := fun _ => Except.error "boom" }

/-- Like `envStd` but `start_recording` fails. -/
def envStartFail : Env := { envStd with startResult := false }

/-- Like `envStd` but `pyperclip.copy` raises. -/
def envClipFail : Env := { envStd with clipboardResult := fun _ => Except.error "no display" }

/-- Idle state with the model loaded and the tray icon present. -/
def sIdle : AppState :=
  { is_recording := false, model_loaded := true, tray_title := some "Parrator - Ready" }

/-- Recording state with the model loaded and the tray icon present. -/
def sRec : AppState :=
  { is_recording := true, model_loaded := true, tray_title := some "Parrator - Recording..." }

/-- Startup state: model not loaded yet, tray icon present. -/
def sLoading : AppState :=
  { is_recording := false, model_loaded := false, tray_title := some "Parrator - Loading..." }

/-! Claims C3, C6, C9, C10 (confirmed). -/

/-- C3: a `_toggle_recording` call while the model is not loaded is a no-op:
the state (hence the Idle phase) is unchanged, no background thread is
spawned, no `start_recording` call is made, and the only event is the
"model still loading" report. -/
theorem C3_model_not_ready_noop (env : Env) (s : AppState) (h : s.model_loaded = false) :
    toggle_recording env s
      = { state := s, events := [Event.print "Model still loading, please wait..."],
          spawned := none } := by
  simp [toggle_recording, h]

/-- Witness for C3: the not-loaded startup state. -/
theorem C3_witness :
    sLoading.model_loaded = false
    ∧ toggle_recording envStd sLoading
        = { state := sLoading, events := [Event.print "Model still loading, please wait..."],
            spawned := none } :=
  ⟨rfl, C3_model_not_ready_noop envStd sLoading rfl⟩

/-- C6: a toggle from Idle with the model loaded whose `start_recording` call
fails ends with the flag rolled back to false (Idle), spawns no background
work (no session exists), and reports the failure as a print event; the
embedded call is a total function, so no exception escapes. -/
theorem C6_start_failure_rollback (env : Env) (s : AppState)
    (h1 : s.model_loaded = true) (h2 : s.is_recording = false) (h3 : env.startResult = false) :
    (toggle_recording env s).state.is_recording = false
    ∧ (toggle_recording env s).spawned = none
    ∧ Event.print "Failed to start recording" ∈ (toggle_recording env s).events := by
  obtain ⟨ir, ml, tt⟩ := s
  simp only [AppState.model_loaded] at h1
  simp only [AppState.is_recording] at h2
  subst h1; subst h2
  cases tt <;>
    simp [toggle_recording, start_recording, update_tray_icon, trayTitle, h3]

/-- Witness for C6: start failure from the ready Idle state. -/
theorem C6_witness :
    sIdle.model_loaded = true ∧ sIdle.is_recording = false
    ∧ envStartFail.startResult = false
    ∧ ((toggle_recording envStartFail sIdle).state.is_recording = false
       ∧ (toggle_recording envStartFail sIdle).spawned = none
       ∧ Event.print "Failed to start recording" ∈ (toggle_recording envStartFail sIdle).events) :=
  ⟨rfl, rfl, rfl, C6_start_failure_rollback envStartFail sIdle rfl rfl rfl⟩

/-- C9: a toggle from Idle with the model loaded emits the recording-flag
write and the "Recording..." title publication before the `start_recording`
call, so when the start fails the event trace shows the transient Recording
status followed by the rollback publication, within the same call. -/
theorem C9_recording_status_before_start (env : Env) (s : AppState)
    (h1 : s.model_loaded = true) (h2 : s.is_recording = false)
    (h3 : s.tray_title.isSome = true) :
    (∃ l, (toggle_recording env s).events
        = Event.print "Recording started..." :: Event.setTitle "Parrator - Recording..."
            :: Event.callStart :: l)
    ∧ (env.startResult = false →
        (toggle_recording env s).events
          = [Event.print "Recording started...", Event.setTitle "Parrator - Recording...",
             Event.callStart, Event.print "Failed to start recording",
             Event.setTitle "Parrator - Ready"]
        ∧ (toggle_recording env s).state.is_recording = false) := by
  obtain ⟨ir, ml, tt⟩ := s
  simp only [AppState.model_loaded] at h1
  simp only [AppState.is_recording] at h2
  simp only [AppState.tray_title] at h3
  subst h1; subst h2
  cases tt with
  | none => simp at h3
  | some t =>
      cases hE : env.startResult <;>
        simp [toggle_recording, start_recording, update_tray_icon, trayTitle, hE]

/-- Witness for C9: failing start from the ready Idle state. -/
theorem C9_witness :
    sIdle.model_loaded = true ∧ sIdle.is_recording = false
    ∧ sIdle.tray_title.isSome = true
    ∧ ((∃ l, (toggle_recording envStartFail sIdle).events
          = Event.print "Recording started..." :: Event.setTitle "Parrator - Recording..."
              :: Event.callStart :: l)
       ∧ (envStartFail.startResult = false →
          (toggle_recording envStartFail sIdle).events
            = [Event.print "Recording started...", Event.setTitle "Parrator - Recording...",
               Event.callStart, Event.print "Failed to start recording",
               Event.setTitle "Parrator - Ready"]
          ∧ (toggle_recording envStartFail sIdle).state.is_recording = false)) :=
  ⟨rfl, rfl, rfl, C9_recording_status_before_start envStartFail sIdle rfl rfl rfl⟩

/-- C10: when the clipboard write raises, `_handle_transcription_result`
emits exactly the transcription print, the attempted copy, and the clipboard
error log; no paste is attempted and, the embedding being a total function,
no fault propagates out of the background task. -/
theorem C10_clipboard_error_no_paste (env : Env) (text e : String)
    (h : env.clipboardResult text = Except.error e) :
    handle_transcription_result env text
      = [Event.print ("Transcribed: " ++ text), Event.callClipboardCopy,
         Event.print ("Clipboard error: " ++ e)]
    ∧ Event.callPaste ∉ handle_transcription_result env text := by
  simp [handle_transcription_result, h]

/-- Witness for C10: a raising clipboard backend. -/
theorem C10_witness :
    envClipFail.clipboardResult "hi" = Except.error "no display"
    ∧ (handle_transcription_result envClipFail "hi"
        = [Event.print ("Transcribed: " ++ "hi"), Event.callClipboardCopy,
           Event.print ("Clipboard error: " ++ "no display")]
       ∧ Event.callPaste ∉ handle_transcription_result envClipFail "hi") :=
  ⟨rfl, C10_clipboard_error_no_paste envClipFail "hi" "no display" rfl⟩

/-! Claims C1, C4, C5, C7, C8 (corrected). -/

/-- C1 counterexample: after a toggle that stops a recording, a background
processing thread is outstanding (`spawned = some [1, 2, 3]`), yet the claim
fails: a further toggle is not a no-op — it changes the state, sets the
recording flag and makes a `start_recording` call, so a new recording
session overlaps the prior session's processing. -/
theorem C1_counterexample :
    (toggle_recording envStd sRec).spawned = some [1, 2, 3]
    ∧ (toggle_recording envStd (toggle_recording envStd sRec).state).state.is_recording = true
    ∧ Event.callStart ∈ (toggle_recording envStd (toggle_recording envStd sRec).state).events
    ∧ (toggle_recording envStd (toggle_recording envStd sRec).state).state
        ≠ (toggle_recording envStd sRec).state := by
  decide

/-- C1 amended: the code has no Processing phase — stopping a recording
immediately clears the flag, so while the background task of the prior
session runs the orchestrator is already Idle, and a toggle during that time
is not ignored: with the model loaded and a succeeding start it begins a new
recording (a `start_recording` call is made and the flag is set), so two
sessions can be simultaneously active. -/
theorem C1_amended (env env2 : Env) (s : AppState)
    (h1 : s.model_loaded = true) (h2 : s.is_recording = true) (h3 : env2.startResult = true) :
    (toggle_recording env s).state.is_recording = false
    ∧ (toggle_recording env2 (toggle_recording env s).state).state.is_recording = true
    ∧ Event.callStart ∈ (toggle_recording env2 (toggle_recording env s).state).events := by
  obtain ⟨ir, ml, tt⟩ := s
  simp only [AppState.model_loaded] at h1
  simp only [AppState.is_recording] at h2
  subst h1; subst h2
  cases hS : env.stopResult <;> cases tt <;>
    simp [toggle_recording, stop_recording, start_recording, update_tray_icon, trayTitle,
      hS, h3]

/-- Witness for C1 amended: a stop followed by a toggle while the spawned
task is outstanding. -/
theorem C1_witness :
    sRec.model_loaded = true ∧ sRec.is_recording = true ∧ envStd.startResult = true
    ∧ ((toggle_recording envStd sRec).state.is_recording = false
       ∧ (toggle_recording envStd (toggle_recording envStd sRec).state).state.is_recording = true
       ∧ Event.callStart ∈ (toggle_recording envStd (toggle_recording envStd sRec).state).events) :=
  ⟨rfl, rfl, rfl, C1_amended envStd envStd sRec rfl rfl rfl⟩

/-- C2 counterexample: with no lock in `_toggle_recording`, the interleaving
in which both threads read `is_recording = True` before either clears it
makes both invocations take the stop path and both call `stop_recording` —
refuting that exactly one invocation effects the transition while the other
is a no-op. -/
theorem C2_counterexample :
    (runSched [true, true, false, false, true, true, true, false, false, false] cInit).stopsA = 1
    ∧ (runSched [true, true, false, false, true, true, true, false, false, false] cInit).stopsB
        = 1 := by
  decide

/-- C2 amended: the code holds no transition lock, so interleaved toggles can
both take the stop path; only when the two invocations are serialized (one
runs to completion before the other starts) does exactly one of them call
`stop_recording`, the second instead reading the cleared flag and starting a
new recording. -/
theorem C2_amended :
    (runSched (List.replicate 5 true ++ List.replicate 5 false) cInit).stopsA = 1
    ∧ (runSched (List.replicate 5 true ++ List.replicate 5 false) cInit).stopsB = 0
    ∧ (runSched (List.replicate 5 true ++ List.replicate 5 false) cInit).startsB = 1 := by
  decide

/-- C4 counterexample: present-but-empty captured samples (`some []`, which
is `is not None` in the source) do spawn the background task, whose first
action is the `save_temp_audio` call — refuting that no save call is made
for empty samples. -/
theorem C4_counterexample :
    (toggle_recording envEmptyAudio sRec).spawned = some []
    ∧ Event.callSave ∈ process envEmptyAudio []
    ∧ Event.callTranscribe ∈ process envEmptyAudio [] := by
  decide

/-- C4 amended: only absent (`None`) captured samples short-circuit: the stop
path then spawns no background task, makes no save, transcribe or delivery
call, reports "No audio data captured", and leaves the flag false (Idle);
present-but-empty samples are processed like any audio. -/
theorem C4_amended (env : Env) (s : AppState)
    (h1 : s.model_loaded = true) (h2 : s.is_recording = true) (h3 : env.stopResult = none) :
    (toggle_recording env s).spawned = none
    ∧ (toggle_recording env s).state.is_recording = false
    ∧ Event.print "No audio data captured" ∈ (toggle_recording env s).events
    ∧ Event.callSave ∉ (toggle_recording env s).events
    ∧ Event.callTranscribe ∉ (toggle_recording env s).events
    ∧ Event.callClipboardCopy ∉ (toggle_recording env s).events := by
  obtain ⟨ir, ml, tt⟩ := s
  simp only [AppState.model_loaded] at h1
  simp only [AppState.is_recording] at h2
  subst h1; subst h2
  cases tt <;>
    simp [toggle_recording, stop_recording, update_tray_icon, trayTitle, h3]

/-- Witness for C4 amended: the recorder returns `None`. -/
theorem C4_witness :
    sRec.model_loaded = true ∧ sRec.is_recording = true ∧ envNoAudio.stopResult = none
    ∧ ((toggle_recording envNoAudio sRec).spawned = none
       ∧ (toggle_recording envNoAudio sRec).state.is_recording = false
       ∧ Event.print "No audio data captured" ∈ (toggle_recording envNoAudio sRec).events
       ∧ Event.callSave ∉ (toggle_recording envNoAudio sRec).events
       ∧ Event.callTranscribe ∉ (toggle_recording envNoAudio sRec).events
       ∧ Event.callClipboardCopy ∉ (toggle_recording envNoAudio sRec).events) :=
  ⟨rfl, rfl, rfl, C4_amended envNoAudio sRec rfl rfl rfl⟩

/-- C5 counterexample: when `transcribe_file` raises, the outer handler
catches the exception and prints a processing error, but the `os.remove`
line is never reached — the temp file is not removed, refuting removal
"including when the transcription call raises". -/
theorem C5_counterexample :
    process envRaise [1, 2, 3]
      = [Event.callSave, Event.callTranscribe, Event.print "Processing error: boom"]
    ∧ Event.callRemove ∉ process envRaise [1, 2, 3] := by
  decide

/-- C5 amended: whenever the save succeeds and the transcription call
returns (success or failure alike), the temp file removal is attempted, and
a removal failure is never propagated: the task's behaviour is identical for
every possible `os.remove` outcome; but when the transcription call raises,
the removal is skipped (the exception is still swallowed by the task). -/
theorem C5_amended (env : Env) (dat : List Int) (p : String) (r : Bool × String)
    (h1 : env.saveResult dat = some p) (h2 : p ≠ "")
    (h3 : env.transcribeResult p = Except.ok r) :
    Event.callRemove ∈ process env dat
    ∧ ∀ rem, process { env with removeResult := rem } dat = process env dat := by
  constructor
  · simp [process, h1, h2, h3]
    cases hr : env.removeResult p <;> simp
  · intro rem
    simp only [process, h1, h2, h3]
    cases h4 : rem p <;> cases h5 : env.removeResult p <;>
      simp [handle_transcription_result, auto_paste, h2]

/-- Witness for C5 amended: the all-success environment. -/
theorem C5_witness :
    envStd.saveResult [1, 2, 3] = some "/tmp/parrator_a.wav"
    ∧ "/tmp/parrator_a.wav" ≠ ""
    ∧ envStd.transcribeResult "/tmp/parrator_a.wav" = Except.ok (true, "hello world")
    ∧ (Event.callRemove ∈ process envStd [1, 2, 3]
       ∧ ∀ rem, process { envStd with removeResult := rem } [1, 2, 3]
           = process envStd [1, 2, 3]) :=
  ⟨rfl, by decide, rfl,
    C5_amended envStd [1, 2, 3] "/tmp/parrator_a.wav" (true, "hello world") rfl (by decide) rfl⟩

/-- C7 counterexample: from the ready Idle state, two toggles produce the
phase path Idle → Recording → Idle: the second toggle ends with the flag
false and the published title "Parrator - Ready" while its background task
is still outstanding — there is no Processing phase, so Processing is
skipped, and a further toggle could re-enter Recording before the prior
session finished. -/
theorem C7_counterexample :
    (toggle_recording envStd sIdle).state.is_recording = true
    ∧ (toggle_recording envStd (toggle_recording envStd sIdle).state).state
        = { is_recording := false, model_loaded := true, tray_title := some "Parrator - Ready" }
    ∧ (toggle_recording envStd (toggle_recording envStd sIdle).state).spawned = some [1, 2, 3]
    ∧ (toggle_recording envStd (toggle_recording envStd sIdle).state).events
        = [Event.print "Recording stopped, processing...", Event.setTitle "Parrator - Ready",
           Event.callStop] := by
  decide

/-- C7 amended: the orchestrator is a two-state machine on the recording
flag: with the model loaded, a toggle while recording always clears the flag
(returns directly to Idle) regardless of the capture outcome, and a toggle
from Idle sets the flag exactly when `start_recording` succeeds; no
Processing phase exists between Recording and Idle. -/
theorem C7_amended (env : Env) (s : AppState) (h : s.model_loaded = true) :
    (s.is_recording = true → (toggle_recording env s).state.is_recording = false)
    ∧ (s.is_recording = false →
        (toggle_recording env s).state.is_recording = env.startResult) := by
  obtain ⟨ir, ml, tt⟩ := s
  simp only [AppState.model_loaded] at h
  subst h
  constructor <;> intro h2 <;>
    simp only [AppState.is_recording] at h2 <;> subst h2 <;>
      cases hS : env.stopResult <;> cases hE : env.startResult <;> cases tt <;>
        simp [toggle_recording, stop_recording, start_recording, update_tray_icon, trayTitle,
          hS, hE]

/-- Witness for C7 amended: the ready Recording state with the standard
environment. -/
theorem C7_witness :
    sRec.model_loaded = true
    ∧ ((sRec.is_recording = true → (toggle_recording envStd sRec).state.is_recording = false)
       ∧ (sRec.is_recording = false →
           (toggle_recording envStd sRec).state.is_recording = envStd.startResult)) :=
  ⟨rfl, C7_amended envStd sRec rfl⟩

/-- C8 counterexample: a failed model load publishes nothing — the task's
only event is a log print and the state (hence the standing "Loading..."
title) is unchanged, so no "Idle/not-ready" status is ever observable; and
after a stop the published title is "Parrator - Ready" even though the
background task is still outstanding, so no "Processing" status exists
either. -/
theorem C8_counterexample :
    load_model_task false sLoading = (sLoading, [Event.print "Failed to load model"])
    ∧ (toggle_recording envStd sRec).spawned = some [1, 2, 3]
    ∧ (toggle_recording envStd sRec).state.tray_title = some "Parrator - Ready" := by
  decide

/-- C8 amended: the published status ranges over exactly three titles —
"Parrator - Recording...", "Parrator - Ready" (Idle/ready) and
"Parrator - Loading..." (Idle/loading); after every toggle with the model
loaded and after every successful model load — from any pre-state, in
particular the startup state with `model_loaded = false` — the standing
title reflects the new flags; a failed model load publishes no status
update at all. -/
theorem C8_amended (env : Env) (s : AppState) (h1 : s.tray_title.isSome = true) :
    (s.model_loaded = true →
      (toggle_recording env s).state.tray_title
        = some (trayTitle (toggle_recording env s).state))
    ∧ (load_model_task true s).1.tray_title = some (trayTitle (load_model_task true s).1)
    ∧ (load_model_task false s).2 = [Event.print "Failed to load model"]
    ∧ (trayTitle s = "Parrator - Recording..." ∨ trayTitle s = "Parrator - Ready"
       ∨ trayTitle s = "Parrator - Loading...") := by
  obtain ⟨ir, ml, tt⟩ := s
  simp only [AppState.tray_title] at h1
  cases tt with
  | none => simp at h1
  | some t =>
      refine ⟨fun h2 => ?_, ?_, ?_, ?_⟩
      · simp only [AppState.model_loaded] at h2
        subst h2
        cases ir <;> cases hS : env.stopResult <;> cases hE : env.startResult <;>
          simp [toggle_recording, stop_recording, start_recording, update_tray_icon,
            trayTitle, hS, hE]
      · cases ir <;> cases ml <;>
          simp [load_model_task, update_tray_icon, trayTitle]
      · simp [load_model_task]
      · cases ir <;> cases ml <;> simp [trayTitle]

/-- Witness for C8 amended: the successful load from the real startup state
(model not yet loaded) publishes a title reflecting the new flags, and a
toggle from the ready Idle state does too. -/
theorem C8_witness :
    sLoading.tray_title.isSome = true ∧ sIdle.tray_title.isSome = true
    ∧ sIdle.model_loaded = true
    ∧ (load_model_task true sLoading).1.tray_title
        = some (trayTitle (load_model_task true sLoading).1)
    ∧ (toggle_recording envStd sIdle).state.tray_title
        = some (trayTitle (toggle_recording envStd sIdle).state) :=
  ⟨rfl, rfl, rfl, (C8_amended envStd sLoading rfl).2.1, (C8_amended envStd sIdle rfl).1 rfl⟩

end Parrator
